import Mathlib

/-!
Verification development for the hospital A2A agent system
(hospital_a2a_system.py): a shallow embedding of the JSON-RPC envelope
dispatch layer, the task store, the capability-document builder, the
coordinator orchestration pipeline and the streaming extension, together
with theorems settling the specified behavioral claims.
-/

namespace A2A

/-- JSON-like values, used for the structured payloads carried in data
parts and in downstream response envelopes. -/
inductive JVal where
  | str : String → JVal
  | int : Int → JVal
  | bool : Bool → JVal
  | null : JVal
  | arr : List JVal → JVal
  | obj : List (String × JVal) → JVal


/-- TaskState enumeration (hospital_a2a_system.py lines 21-30). -/
inductive TaskState where
  | submitted
  | working
  | inputRequired
  | completed
  | canceled
  | failed
  | rejected
  | authRequired
  | unknown
deriving DecidableEq, Repr


/-- Message parts: TextPart and DataPart (lines 32-42).  The optional
metadata field is omitted: no construction site in the source ever sets
it. -/
inductive Part where
  | text (text : String)
  | data (data : JVal)


/-- Message dataclass (lines 44-52).  The constant kind field
("message") and the never-set metadata field are omitted. -/
structure Message where
  role : String
  parts : List Part
  messageId : String
  taskId : Option String := none
  contextId : Option String := none


/-- TaskStatus dataclass (lines 54-58). -/
structure TaskStatus where
  state : TaskState
  message : Option Message := none
  timestamp : Option String := none


/-- Task dataclass (lines 60-68).  History entries are optional
messages because handle_message_send stores the raw inbound
params.get("message") value, which is None when the key is absent.
The never-set artifacts, kind and metadata fields are omitted. -/
structure Task where
  id : String
  contextId : String
  status : TaskStatus
  history : List (Option Message) := []


/-- A JSON-RPC error object, as placed in the error field of a response
envelope. -/
structure RpcError where
  code : Int
  message : String
  data : Option JVal := none


/-- Body of a response envelope: either a result carrying the Task dict
or an error object (mutually exclusive in every envelope the source
builds). -/
inductive ResponseBody where
  | result (task : Task)
  | error (err : RpcError)


/-- A response envelope: the echoed correlation id plus the body.  The
constant jsonrpc field ("2.0") is omitted. -/
structure ResponseEnvelope where
  id : Option String
  body : ResponseBody


/-- Outcome of one inbound POST to the RPC route: either a response
envelope is returned, or an exception escapes the route handler and the
transport surfaces a bare server error instead of an envelope. -/
inductive RpcOutcome where
  | envelope (env : ResponseEnvelope)
  | unhandled (exn : String)


/-- The params object of a message/send request:
params.get("message"), which is None when absent. -/
structure RpcParams where
  message : Option Message := none


/-- An inbound RPC payload as seen by handle_json_rpc: either the body
fails to parse as JSON (request.json() raises), or it parsed and
carries data.get("method"), data.get("id") and data.get("params", {}). -/
inductive InboundPayload where
  | malformed
  | parsed (method : Option String) (id : Option String) (params : RpcParams)


/-- The in-memory task table self.tasks, keyed by task id; insertion
conses the new binding. -/
abbrev TaskTable := List (String × Task)

/-- The capability-handler extension point: process_message receives the
raw inbound message (possibly None), the fresh task id and context id,
and either returns the reply Message or raises (modelled as error). -/
abbrev Handler := Option Message → String → String → Except String Message

/-- BaseA2AAgent.handle_message_send (lines 195-216).  Fresh uuid4
values for the task id and context id are passed in as parameters; the
inbound contextId, if any, is never consulted.  process_message runs
first; if it raises, no Task is created.  Otherwise the Task is stored
directly in state completed with history [inbound, reply]. -/
def handle_message_send (process : Handler) (now freshTaskId freshContextId : String)
    (params : RpcParams) (tasks : TaskTable) : Except String (Task × TaskTable) :=
  match process params.message freshTaskId freshContextId with
  | .error e => .error e
  | .ok responseMessage =>
    let task : Task :=
      { id := freshTaskId
        contextId := freshContextId
        status :=
          { state := .completed
            message := some responseMessage
            timestamp := some now }
        history := [params.message, some responseMessage] }
    .ok (task, (freshTaskId, task) :: tasks)

/-- BaseA2AAgent.handle_json_rpc (lines 162-193).  On malformed JSON,
request.json() raises before request_id is assigned, so the except
handler itself raises UnboundLocalError while building the error
envelope and no envelope is produced.  A parsed payload is dispatched
on method: message/send runs handle_message_send (a raise there is
caught, with request_id bound, and answered with code -32603); every
other method, including a missing one, is answered with code -32601. -/
def handle_json_rpc (process : Handler) (now freshTaskId freshContextId : String)
    (payload : InboundPayload) (tasks : TaskTable) : RpcOutcome × TaskTable :=
  match payload with
  | .malformed => (.unhandled "UnboundLocalError: request_id", tasks)
  | .parsed method requestId params =>
    if method = some "message/send" then
      match handle_message_send process now freshTaskId freshContextId params tasks with
      | .ok (task, updated) => (.envelope ⟨requestId, .result task⟩, updated)
      | .error e =>
        (.envelope ⟨requestId, .error ⟨-32603, "Internal error: " ++ e, none⟩⟩, tasks)
    else
      (.envelope ⟨requestId, .error ⟨-32601, "Method not found", none⟩⟩, tasks)

/-- BaseA2AAgent.process_message (lines 218-226): the default handler
ignores the inbound message and replies with a fixed text part. -/
def base_process_message (freshMessageId : String) : Handler :=
  fun _ taskId contextId =>
    .ok { role := "agent"
          parts := [.text "Base agent response"]
          messageId := freshMessageId
          taskId := some taskId
          contextId := some contextId }

/-- Discriminator: does an RPC outcome carry a result envelope? -/
def isResultEnvelope : RpcOutcome → Bool
  | .envelope ⟨_, .result _⟩ => true
  | _ => false

/-- The correlation id of the produced envelope, when one was produced
at all. -/
def envelopeId : RpcOutcome → Option (Option String)
  | .envelope env => some env.id
  | .unhandled _ => none

/-- Transport-level credentials inspected by the security extension:
the X-API-Key header and the Authorization header. -/
structure RequestHeaders where
  apiKey : Option String := none
  authorization : Option String := none

/-- SecureA2AAgent.validate_api_key (lines 1046-1049): any key starting
with "hospital_" is accepted. -/
def validate_api_key (apiKey : String) : Bool :=
  apiKey.startsWith "hospital_"

/-- SecureA2AAgent.validate_jwt_token (lines 1051-1054): any token
containing the substring "valid" is accepted. -/
def validate_jwt_token (token : String) : Bool :=
  (token.splitOn "valid").length != 1

/-- SecureA2AAgent.authenticate_request (lines 1028-1044).  A present,
truthy (non-empty) API key is checked first; otherwise a Bearer
authorization header is checked; otherwise the request is rejected. -/
def authenticate_request (requireAuth : Bool) (headers : RequestHeaders) : Bool :=
  if !requireAuth then
    true
  else if (match headers.apiKey with
           | some k => k != "" && validate_api_key k
           | none => false) then
    true
  else
    let authHeader := headers.authorization.getD ""
    if authHeader.startsWith "Bearer " then
      validate_jwt_token (authHeader.drop 7)
    else
      false

/-- SecureA2AAgent.handle_json_rpc (lines 1056-1071).  An
unauthenticated request is answered with error code -32001 and a null
id, before any dispatch; otherwise the base dispatch runs.  The data
field lists the security scheme keys of the agent card, which for an
auth-requiring agent are apiKey and bearer. -/
def secure_handle_json_rpc (requireAuth : Bool) (headers : RequestHeaders)
    (process : Handler) (now freshTaskId freshContextId : String)
    (payload : InboundPayload) (tasks : TaskTable) : RpcOutcome × TaskTable :=
  if !authenticate_request requireAuth headers then
    (.envelope ⟨none, .error ⟨-32001, "Authentication required",
        some (.obj [("required_auth", .arr [.str "apiKey", .str "bearer"])])⟩⟩, tasks)
  else
    handle_json_rpc process now freshTaskId freshContextId payload tasks

/-- AgentSkill dataclass (lines 70-78). -/
structure AgentSkill where
  id : String
  name : String
  description : String
  tags : List String
  examples : Option (List String) := none
  inputModes : Option (List String) := none
  outputModes : Option (List String) := none

/-- AgentCard dataclass (lines 80-90). -/
structure AgentCard where
  name : String
  description : String
  url : String
  version : String
  defaultInputModes : List String
  defaultOutputModes : List String
  skills : List AgentSkill
  capabilities : List (String × Bool)
  documentationUrl : Option String := none

/-- The static configuration an agent is constructed with
(BaseA2AAgent.__init__, lines 126-134): name, description, port and
declared skills. -/
structure AgentConfig where
  name : String
  description : String
  port : Nat
  skills : List AgentSkill

/-- One agent instance: its static configuration together with its
mutable task table. -/
structure AgentInstance where
  config : AgentConfig
  tasks : TaskTable

/-- BaseA2AAgent.get_agent_card (lines 145-160): builds the AgentCard
from the static configuration alone. -/
def get_agent_card (agent : AgentInstance) : AgentCard :=
  { name := agent.config.name
    description := agent.config.description
    url := "http://localhost:" ++ toString agent.config.port ++ "/a2a/v1"
    version := "1.0.0"
    defaultInputModes := ["application/json", "text/plain"]
    defaultOutputModes := ["application/json", "text/plain"]
    skills := agent.config.skills
    capabilities :=
      [("streaming", false), ("pushNotifications", false),
       ("stateTransitionHistory", false)] }

/-- message.get("parts", [{}])[0].get("text", ""): reading the first
part of a message raises IndexError when the parts list is empty, and
yields the empty string for a part without a text field. -/
def firstPartText (m : Message) : Except String String :=
  match m.parts with
  | [] => .error "IndexError: list index out of range"
  | .text t :: _ => .ok t
  | .data _ :: _ => .ok ""

/-- user_message extraction at the top of every process_message
override: calling .get on a missing (None) message raises
AttributeError. -/
def inboundText (m : Option Message) : Except String String :=
  match m with
  | none => .error "AttributeError: NoneType object has no attribute get"
  | some msg => firstPartText msg

/-- A downstream response as parsed by call_agent via response.json():
a JSON object, read only through .get("result", {}). -/
abbrev DownResponse := List (String × JVal)

/-- The outcome of one outbound call_agent invocation: either the HTTP
round trip succeeded and the body parsed (ok), or httpx raised a
timeout or transport error (exn). -/
inductive CallOutcome where
  | ok (response : DownResponse)
  | exn (message : String)

/-- response.get("result", {}): the result fragment of a downstream
envelope, defaulting to the empty object when the key is absent. -/
def getResult (response : DownResponse) : JVal :=
  (response.lookup "result").getD (.obj [])

/-- The three workflow step descriptions appended by
HospitalCoordinatorAgent.process_message (lines 727, 734, 741). -/
def workflow_step_descriptions : List String :=
  ["Checking patient information...",
   "Finding available doctors...",
   "Booking appointment..."]

/-- The workflow_result dict built on full success (lines 748-754):
one entry per step, keyed and ordered as in the source literal. -/
def workflowData (steps : List String)
    (patientInfo doctorAvailability bookingResult : JVal) : JVal :=
  .obj [("workflow_steps", .arr (steps.map .str)),
        ("patient_info", patientInfo),
        ("doctor_availability", doctorAvailability),
        ("booking_result", bookingResult),
        ("status", .str "completed")]

/-- The reply built in the except branch of the coordinator (lines
767-774): a single text part carrying the failure description, and
nothing else. -/
def workflowErrorMessage (e : String) (freshMessageId taskId contextId : String) : Message :=
  { role := "agent"
    parts := [.text ("Error in appointment booking workflow: " ++ e)]
    messageId := freshMessageId
    taskId := some taskId
    contextId := some contextId }

/-- The reply built on full success (lines 756-765). -/
def workflowSuccessMessage (patientResponse doctorResponse bookingResponse : DownResponse)
    (freshMessageId taskId contextId : String) : Message :=
  { role := "agent"
    parts := [.text "Appointment booking workflow completed successfully!",
              .data (workflowData workflow_step_descriptions
                (getResult patientResponse) (getResult doctorResponse)
                (getResult bookingResponse))]
    messageId := freshMessageId
    taskId := some taskId
    contextId := some contextId }

/-- The observable outcome of one coordinator pipeline run: how many
outbound call_agent invocations were attempted, and the reply. -/
structure CoordOutcome where
  callsMade : Nat
  reply : Message

/-- HospitalCoordinatorAgent.process_message (lines 719-774).  The text
extraction happens before the try block, so a missing message or empty
parts list raises out of the handler.  Inside the try block the three
outbound calls run strictly in order; the environment responses (or
transport exceptions) for the three calls are the CallOutcome
parameters.  The first exception aborts the remaining calls and yields
the error reply; on three parsed responses the aggregated success reply
is built. -/
def coordinator_process_message (patientCall doctorCall bookingCall : CallOutcome)
    (freshMessageId : String) (m : Option Message) (taskId contextId : String) :
    Except String CoordOutcome :=
  match inboundText m with
  | .error e => .error e
  | .ok _userText =>
    match patientCall with
    | .exn e => .ok ⟨1, workflowErrorMessage e freshMessageId taskId contextId⟩
    | .ok patientResponse =>
      match doctorCall with
      | .exn e => .ok ⟨2, workflowErrorMessage e freshMessageId taskId contextId⟩
      | .ok doctorResponse =>
        match bookingCall with
        | .exn e => .ok ⟨3, workflowErrorMessage e freshMessageId taskId contextId⟩
        | .ok bookingResponse =>
          .ok ⟨3, workflowSuccessMessage patientResponse doctorResponse bookingResponse
                    freshMessageId taskId contextId⟩

/-- The coordinator as a capability handler, as invoked by
handle_message_send: only the reply message is returned to the task
machinery. -/
def coordinatorHandler (patientCall doctorCall bookingCall : CallOutcome)
    (freshMessageId : String) : Handler :=
  fun m taskId contextId =>
    (coordinator_process_message patientCall doctorCall bookingCall
      freshMessageId m taskId contextId).map (fun r => r.reply)

/-- One server-sent event of the streaming extension, i.e. the result
object of one streamed response envelope (lines 1240-1303).  The
initial acceptance event has kind "task" and no final field; progress
and completion events have kind "status-update". -/
structure StreamEvent where
  kind : String
  taskId : String
  contextId : String
  state : TaskState
  message : Option String := none
  final : Option Bool := none
deriving DecidableEq, Repr

/-- The configured processing stages of the streaming agent
(lines 1256-1262). -/
def analysis_steps : List String :=
  ["Analyzing patient demographics...",
   "Processing medical history...",
   "Evaluating diagnostic patterns...",
   "Generating risk assessment...",
   "Finalizing recommendations..."]

/-- The progress events emitted by the for-loop over the enumerated
stages (lines 1264-1286): each carries the stage text and
final = (index == total - 1). -/
def progressEvents (taskId contextId : String) (total : Nat) :
    Nat → List String → List StreamEvent
  | _, [] => []
  | i, step :: rest =>
    { kind := "status-update", taskId := taskId, contextId := contextId,
      state := .working, message := some step, final := some (i == total - 1) } ::
    progressEvents taskId contextId total (i + 1) rest

/-- StreamingA2AAgent.handle_streaming_message generate_stream (lines
1235-1303): the initial working acceptance event, the per-stage
progress events, then the completion event with final true. -/
def generate_stream (stages : List String) (taskId contextId : String) :
    List StreamEvent :=
  { kind := "task", taskId := taskId, contextId := contextId,
    state := .working } ::
  (progressEvents taskId contextId stages.length 0 stages ++
   [{ kind := "status-update", taskId := taskId, contextId := contextId,
      state := .completed, final := some true }])

/-- The full event sequence of one message/stream call on the
streaming agent, with its hardcoded stage configuration. -/
def handle_streaming_message (taskId contextId : String) : List StreamEvent :=
  generate_stream analysis_steps taskId contextId

/-- One observable state transition of an agent task table: a POST to
the RPC route of the base dispatch or of the secure wrapper, with
arbitrary handler, payload and clock, and a fresh uuid4 task id (fresh
ids are modelled by the hypothesis that the id is unused). -/
inductive Step : TaskTable → TaskTable → Prop where
  | rpc (process : Handler) (now freshTaskId freshContextId : String)
      (payload : InboundPayload) (s : TaskTable)
      (hfresh : freshTaskId ∉ s.map Prod.fst) :
      Step s (handle_json_rpc process now freshTaskId freshContextId payload s).2
  | secureRpc (requireAuth : Bool) (headers : RequestHeaders) (process : Handler)
      (now freshTaskId freshContextId : String) (payload : InboundPayload) (s : TaskTable)
      (hfresh : freshTaskId ∉ s.map Prod.fst) :
      Step s (secure_handle_json_rpc requireAuth headers process now
                freshTaskId freshContextId payload s).2

/-- Task tables reachable from the empty table an agent starts with. -/
inductive Reachable : TaskTable → Prop where
  | init : Reachable []
  | step {s s' : TaskTable} : Reachable s → Step s s' → Reachable s'

/-- A concrete inbound user message, supplying a contextId. -/
def sampleInbound : Message :=
  { role := "user"
    parts := [.text "Book appointment for John Doe with cardiology"]
    messageId := "msg-user-1"
    contextId := some "ctx-0" }

/-- A concrete agent reply message, as the base handler builds it. -/
def sampleReply : Message :=
  { role := "agent"
    parts := [.text "Base agent response"]
    messageId := "m-1"
    taskId := some "task-1"
    contextId := some "ctx-1" }

/-- A concrete stored Task of the shape handle_message_send creates. -/
def sampleStoredTask : Task :=
  { id := "task-1"
    contextId := "ctx-1"
    status := { state := .completed, message := some sampleReply, timestamp := some "ts-1" }
    history := [some sampleInbound, some sampleReply] }

/-- The patient-registration skill declared by the patient agent
(lines 238-247). -/
def patient_registration_skill : AgentSkill :=
  { id := "patient-registration"
    name := "Patient Registration"
    description := "Register new patients and validate existing patient information"
    tags := ["registration", "patient", "verification"]
    examples := some
      ["Register a new patient with name John Doe, email john@email.com, phone 123-456-7890",
       "Verify patient information for medical record number MR123456"] }

/-- The static configuration of the patient agent (lines 260-265). -/
def patient_agent_config : AgentConfig :=
  { name := "Patient Registration Agent"
    description := "Handles patient registration, verification, and lookup services for the hospital system"
    port := 8001
    skills := [patient_registration_skill] }

/-- Claim C5 (amended): the Task created for an inbound message/send
whose handler returns normally carries the fresh task id; a fresh
contextId regardless of any contextId supplied by the inbound message;
status state completed (it is never observable as submitted), with the
reply as the status message and the creation timestamp; and a
two-element history consisting of the inbound message followed by the
reply.  The Task is stored in the table under its id. -/
theorem createTask_postcondition (process : Handler) (now ftid fcid : String)
    (params : RpcParams) (tasks : TaskTable) (reply : Message)
    (h : process params.message ftid fcid = .ok reply) :
    handle_message_send process now ftid fcid params tasks =
      .ok ({ id := ftid
             contextId := fcid
             status := { state := .completed, message := some reply, timestamp := some now }
             history := [params.message, some reply] },
           (ftid,
            { id := ftid
              contextId := fcid
              status := { state := .completed, message := some reply, timestamp := some now }
              history := [params.message, some reply] }) :: tasks) := by
  simp [handle_message_send, h]

/-- Witness for C5: the base handler accepts a concrete inbound message
and the stored Task has the stated shape. -/
theorem createTask_postcondition_witness :
    base_process_message "m-1" (RpcParams.mk (some sampleInbound)).message "task-1" "ctx-1" =
      .ok { role := "agent", parts := [.text "Base agent response"], messageId := "m-1",
            taskId := some "task-1", contextId := some "ctx-1" } ∧
    handle_message_send (base_process_message "m-1") "ts-1" "task-1" "ctx-1"
        ⟨some sampleInbound⟩ [] =
      .ok ({ id := "task-1"
             contextId := "ctx-1"
             status := { state := .completed,
                         message := some { role := "agent",
                                           parts := [.text "Base agent response"],
                                           messageId := "m-1", taskId := some "task-1",
                                           contextId := some "ctx-1" },
                         timestamp := some "ts-1" }
             history := [some sampleInbound,
                         some { role := "agent", parts := [.text "Base agent response"],
                                messageId := "m-1", taskId := some "task-1",
                                contextId := some "ctx-1" }] },
           ("task-1",
            { id := "task-1"
              contextId := "ctx-1"
              status := { state := .completed,
                          message := some { role := "agent",
                                            parts := [.text "Base agent response"],
                                            messageId := "m-1", taskId := some "task-1",
                                            contextId := some "ctx-1" },
                          timestamp := some "ts-1" }
              history := [some sampleInbound,
                          some { role := "agent", parts := [.text "Base agent response"],
                                 messageId := "m-1", taskId := some "task-1",
                                 contextId := some "ctx-1" }] }) :: []) :=
  ⟨rfl, createTask_postcondition (base_process_message "m-1") "ts-1" "task-1" "ctx-1"
    ⟨some sampleInbound⟩ [] _ rfl⟩

/-- Counterexample for C5 as stated: for a concrete inbound message
supplying contextId ctx-0, the created Task has the fresh contextId
ctx-fresh rather than reusing ctx-0; its initial (and only) status
state is completed, not submitted; and its history has two elements
whose last is the agent reply (role agent), not the inbound message
(role user). -/
theorem createTask_claim_counterexample :
    (handle_message_send (base_process_message "m-agent-1") "ts0" "task-1" "ctx-fresh"
        ⟨some sampleInbound⟩ []).toOption.map
      (fun r => (r.1.contextId, r.1.status.state, r.1.history.length,
                 r.1.history.getLast?.map (fun o => o.map (fun msg => msg.role)))) =
      some ("ctx-fresh", TaskState.completed, 2, some (some "agent")) ∧
    sampleInbound.contextId = some "ctx-0" ∧
    ("ctx-fresh" : String) ≠ "ctx-0" ∧
    TaskState.completed ≠ TaskState.submitted ∧
    (2 : Nat) ≠ 1 ∧
    sampleInbound.role = "user" ∧
    ("agent" : String) ≠ "user" :=
  ⟨rfl, rfl, by decide, by decide, by decide, rfl, by decide⟩

/-- Claim C2 (amended): a message/send request whose capability handler
raises is answered with an envelope-level JSON-RPC error, code -32603,
whose message embeds the error text, with the request id echoed; the
task table is unchanged, so no Task (in particular no failed Task) is
created and the failure is not visible in any conversation history. -/
theorem handler_error_envelope (process : Handler) (now ftid fcid : String)
    (requestId : Option String) (params : RpcParams) (tasks : TaskTable) (e : String)
    (h : process params.message ftid fcid = .error e) :
    handle_json_rpc process now ftid fcid (.parsed (some "message/send") requestId params)
        tasks =
      (.envelope ⟨requestId, .error ⟨-32603, "Internal error: " ++ e, none⟩⟩, tasks) := by
  simp [handle_json_rpc, handle_message_send, h]

/-- Witness for C2: a concrete raising handler on a concrete request. -/
theorem handler_error_envelope_witness :
    ((fun _ _ _ => .error "IndexError: list index out of range" : Handler)
        (RpcParams.mk (some sampleInbound)).message "task-2" "ctx-2" =
      (.error "IndexError: list index out of range" : Except String Message)) ∧
    handle_json_rpc (fun _ _ _ => .error "IndexError: list index out of range")
        "ts0" "task-2" "ctx-2"
        (.parsed (some "message/send") (some "req-7") ⟨some sampleInbound⟩) [] =
      (.envelope ⟨some "req-7", .error ⟨-32603,
          "Internal error: IndexError: list index out of range", none⟩⟩, []) :=
  ⟨rfl, handler_error_envelope (fun _ _ _ => .error "IndexError: list index out of range")
    "ts0" "task-2" "ctx-2" (some "req-7") ⟨some sampleInbound⟩ [] _ rfl⟩

/-- Counterexample for C2 as stated: with a raising handler, the
concrete message/send request is answered with an envelope-level error
(code -32603), not a JSON-RPC success carrying a failed Task, and the
task table stays empty, so the owning agent records no Task at all. -/
theorem handler_error_claim_counterexample :
    handle_json_rpc (fun _ _ _ => .error "IndexError: list index out of range")
        "ts0" "task-2" "ctx-2"
        (.parsed (some "message/send") (some "req-7") ⟨some sampleInbound⟩) [] =
      (.envelope ⟨some "req-7", .error ⟨-32603,
          "Internal error: IndexError: list index out of range", none⟩⟩, []) ∧
    isResultEnvelope (handle_json_rpc
        (fun _ _ _ => .error "IndexError: list index out of range") "ts0" "task-2" "ctx-2"
        (.parsed (some "message/send") (some "req-7") ⟨some sampleInbound⟩) []).1 = false ∧
    (handle_json_rpc (fun _ _ _ => .error "IndexError: list index out of range")
        "ts0" "task-2" "ctx-2"
        (.parsed (some "message/send") (some "req-7") ⟨some sampleInbound⟩) []).2.length = 0 :=
  ⟨rfl, rfl, rfl⟩

/-- Claim C3 (amended): every response envelope the base dispatcher
produces for a decoded request echoes the request id unchanged, for any
method and handler; the secure wrapper, however, answers an
unauthenticated request with an envelope whose id is null rather than
the request id. -/
theorem response_id_correlation (process : Handler) (now ftid fcid : String)
    (method : Option String) (requestId : Option String) (params : RpcParams)
    (tasks : TaskTable) (requireAuth : Bool) (headers : RequestHeaders)
    (payload : InboundPayload)
    (hAuth : authenticate_request requireAuth headers = false) :
    envelopeId (handle_json_rpc process now ftid fcid
        (.parsed method requestId params) tasks).1 = some requestId ∧
    envelopeId (secure_handle_json_rpc requireAuth headers process now ftid fcid
        payload tasks).1 = some none := by
  constructor
  · unfold handle_json_rpc
    by_cases hm : method = some "message/send"
    · simp only [hm, if_pos rfl]
      cases hms : handle_message_send process now ftid fcid params tasks with
      | ok p => cases p with | mk task updated => simp [envelopeId]
      | error e => simp [envelopeId]
    · simp [hm, envelopeId]
  · simp [secure_handle_json_rpc, hAuth, envelopeId]

/-- Witness for C3: a concrete unauthenticated request against the
secure wrapper, and a concrete decoded request against the base
dispatcher. -/
theorem response_id_correlation_witness :
    authenticate_request true ⟨none, none⟩ = false ∧
    envelopeId (handle_json_rpc (base_process_message "m-1") "ts0" "task-3" "ctx-3"
        (.parsed (some "message/send") (some "req-9") ⟨some sampleInbound⟩) []).1 =
      some (some "req-9") ∧
    envelopeId (secure_handle_json_rpc true ⟨none, none⟩ (base_process_message "m-1")
        "ts0" "task-3" "ctx-3"
        (.parsed (some "message/send") (some "req-9") ⟨some sampleInbound⟩) []).1 =
      some none :=
  ⟨rfl,
   (response_id_correlation (base_process_message "m-1") "ts0" "task-3" "ctx-3"
     (some "message/send") (some "req-9") ⟨some sampleInbound⟩ [] true ⟨none, none⟩
     (.parsed (some "message/send") (some "req-9") ⟨some sampleInbound⟩) rfl).1,
   (response_id_correlation (base_process_message "m-1") "ts0" "task-3" "ctx-3"
     (some "message/send") (some "req-9") ⟨some sampleInbound⟩ [] true ⟨none, none⟩
     (.parsed (some "message/send") (some "req-9") ⟨some sampleInbound⟩) rfl).2⟩

/-- Counterexample for C3 as stated: the secure agent answers a request
carrying id req-9 but no credentials with the -32001 error envelope
whose id is null, not req-9. -/
theorem response_id_claim_counterexample :
    secure_handle_json_rpc true ⟨none, none⟩ (base_process_message "m-1") "ts0"
        "task-3" "ctx-3"
        (.parsed (some "message/send") (some "req-9") ⟨some sampleInbound⟩) [] =
      (.envelope ⟨none, .error ⟨-32001, "Authentication required",
          some (.obj [("required_auth", .arr [.str "apiKey", .str "bearer"])])⟩⟩, []) ∧
    envelopeId (secure_handle_json_rpc true ⟨none, none⟩ (base_process_message "m-1")
        "ts0" "task-3" "ctx-3"
        (.parsed (some "message/send") (some "req-9") ⟨some sampleInbound⟩) []).1 =
      some none ∧
    (some none : Option (Option String)) ≠ some (some "req-9") :=
  ⟨rfl, rfl, by decide⟩

/-- Claim C6 (amended): a malformed JSON payload produces no envelope
at all (the except handler itself raises UnboundLocalError, which the
transport surfaces as a bare server error) and creates no Task; a
payload whose method is missing, or is any value other than
message/send such as message/delete, is answered with error code
-32601 and creates no Task; a payload lacking an id is not rejected:
with method message/send it is processed normally and answered with a
success envelope whose id is null. -/
theorem envelope_rejection_codes (process : Handler) (now ftid fcid : String)
    (requestId : Option String) (method : Option String) (params : RpcParams)
    (tasks : TaskTable) (reply : Message)
    (hm : method ≠ some "message/send")
    (hok : process params.message ftid fcid = .ok reply) :
    handle_json_rpc process now ftid fcid .malformed tasks =
      (.unhandled "UnboundLocalError: request_id", tasks) ∧
    handle_json_rpc process now ftid fcid (.parsed method requestId params) tasks =
      (.envelope ⟨requestId, .error ⟨-32601, "Method not found", none⟩⟩, tasks) ∧
    isResultEnvelope (handle_json_rpc process now ftid fcid
        (.parsed (some "message/send") none params) tasks).1 = true ∧
    envelopeId (handle_json_rpc process now ftid fcid
        (.parsed (some "message/send") none params) tasks).1 = some none := by
  refine ⟨rfl, ?_, ?_, ?_⟩
  · simp [handle_json_rpc, hm]
  · simp [handle_json_rpc, handle_message_send, hok, isResultEnvelope]
  · simp [handle_json_rpc, handle_message_send, hok, envelopeId]

/-- Witness for C6: the unknown method message/delete on a concrete
request, together with a concrete id-less message/send. -/
theorem envelope_rejection_codes_witness :
    (some "message/delete" : Option String) ≠ some "message/send" ∧
    base_process_message "m-1" (RpcParams.mk (some sampleInbound)).message "task-4" "ctx-4" =
      .ok { role := "agent", parts := [.text "Base agent response"], messageId := "m-1",
            taskId := some "task-4", contextId := some "ctx-4" } ∧
    (handle_json_rpc (base_process_message "m-1") "ts0" "task-4" "ctx-4" .malformed [] =
      (.unhandled "UnboundLocalError: request_id", []) ∧
    handle_json_rpc (base_process_message "m-1") "ts0" "task-4" "ctx-4"
        (.parsed (some "message/delete") (some "req-3") ⟨some sampleInbound⟩) [] =
      (.envelope ⟨some "req-3", .error ⟨-32601, "Method not found", none⟩⟩, []) ∧
    isResultEnvelope (handle_json_rpc (base_process_message "m-1") "ts0" "task-4" "ctx-4"
        (.parsed (some "message/send") none ⟨some sampleInbound⟩) []).1 = true ∧
    envelopeId (handle_json_rpc (base_process_message "m-1") "ts0" "task-4" "ctx-4"
        (.parsed (some "message/send") none ⟨some sampleInbound⟩) []).1 = some none) :=
  ⟨by decide, rfl,
   envelope_rejection_codes (base_process_message "m-1") "ts0" "task-4" "ctx-4"
     (some "req-3") (some "message/delete") ⟨some sampleInbound⟩ [] _ (by decide) rfl⟩

/-- Counterexample for C6 as stated: a payload lacking a method is
answered with code -32601, not -32603, and a malformed payload yields
no envelope at all (so no -32603 envelope either). -/
theorem envelope_rejection_claim_counterexample :
    handle_json_rpc (base_process_message "m-1") "ts0" "task-4" "ctx-4"
        (.parsed none (some "req-3") ⟨none⟩) [] =
      (.envelope ⟨some "req-3", .error ⟨-32601, "Method not found", none⟩⟩, []) ∧
    ((-32601 : Int) ≠ -32603) ∧
    handle_json_rpc (base_process_message "m-1") "ts0" "task-4" "ctx-4" .malformed [] =
      (.unhandled "UnboundLocalError: request_id", []) ∧
    envelopeId (handle_json_rpc (base_process_message "m-1") "ts0" "task-4" "ctx-4"
        .malformed []).1 = none :=
  ⟨rfl, by decide, rfl, rfl⟩

/-- Claim C9: the capability-document builder is a pure function of the
static configuration: any two agent instances with the same
configuration, regardless of their task tables, yield identical
AgentCards, so repeated calls with unchanged configuration yield
identical documents. -/
theorem get_agent_card_idempotent (a b : AgentInstance) (h : a.config = b.config) :
    get_agent_card a = get_agent_card b := by
  simp [get_agent_card, h]

/-- Witness for C9: the patient agent configuration with an empty task
table and with one stored task yields the same card. -/
theorem get_agent_card_idempotent_witness :
    (AgentInstance.mk patient_agent_config []).config =
      (AgentInstance.mk patient_agent_config [("task-1", sampleStoredTask)]).config ∧
    get_agent_card ⟨patient_agent_config, []⟩ =
      get_agent_card ⟨patient_agent_config, [("task-1", sampleStoredTask)]⟩ :=
  ⟨rfl, get_agent_card_idempotent ⟨patient_agent_config, []⟩
    ⟨patient_agent_config, [("task-1", sampleStoredTask)]⟩ rfl⟩

/-- Claim C1 (amended): when step k of the coordinator pipeline raises
a timeout or transport error, no step after k executes — exactly k
outbound calls are attempted — and the reply is a single text part
carrying the failure description alone, without the results of the
steps already obtained; the coordinator Task nonetheless ends in state
completed, not failed. -/
theorem coordinator_short_circuit (m : Message) (userText : String)
    (ht : inboundText (some m) = .ok userText)
    (e : String) (p1 p2 : DownResponse) (o2 o3 : CallOutcome)
    (mid tid cid now ftid fcid : String) (tasks : TaskTable) :
    coordinator_process_message (.exn e) o2 o3 mid (some m) tid cid =
      .ok ⟨1, workflowErrorMessage e mid tid cid⟩ ∧
    coordinator_process_message (.ok p1) (.exn e) o3 mid (some m) tid cid =
      .ok ⟨2, workflowErrorMessage e mid tid cid⟩ ∧
    coordinator_process_message (.ok p1) (.ok p2) (.exn e) mid (some m) tid cid =
      .ok ⟨3, workflowErrorMessage e mid tid cid⟩ ∧
    (workflowErrorMessage e mid tid cid).parts =
      [.text ("Error in appointment booking workflow: " ++ e)] ∧
    (handle_message_send (coordinatorHandler (.ok p1) (.exn e) o3 mid) now ftid fcid
        ⟨some m⟩ tasks).toOption.map (fun r => r.1.status.state) =
      some .completed := by
  refine ⟨?_, ?_, ?_, rfl, ?_⟩
  · simp [coordinator_process_message, ht]
  · simp [coordinator_process_message, ht]
  · simp [coordinator_process_message, ht]
  · simp [handle_message_send, coordinatorHandler, coordinator_process_message, ht,
          Except.map, Except.toOption]

/-- Witness for C1: a concrete pipeline where step 1 succeeds and step
2 raises ReadTimeout. -/
theorem coordinator_short_circuit_witness :
    inboundText (some sampleInbound) =
      .ok "Book appointment for John Doe with cardiology" ∧
    (coordinator_process_message (.exn "ReadTimeout") (.ok [("result", .str "p2")])
        (.ok [("result", .str "p3")]) "mid-1" (some sampleInbound) "task-9" "ctx-9" =
      .ok ⟨1, workflowErrorMessage "ReadTimeout" "mid-1" "task-9" "ctx-9"⟩ ∧
    coordinator_process_message (.ok [("result", .str "p1")]) (.exn "ReadTimeout")
        (.ok [("result", .str "p3")]) "mid-1" (some sampleInbound) "task-9" "ctx-9" =
      .ok ⟨2, workflowErrorMessage "ReadTimeout" "mid-1" "task-9" "ctx-9"⟩ ∧
    coordinator_process_message (.ok [("result", .str "p1")]) (.ok [("result", .str "p2")])
        (.exn "ReadTimeout") "mid-1" (some sampleInbound) "task-9" "ctx-9" =
      .ok ⟨3, workflowErrorMessage "ReadTimeout" "mid-1" "task-9" "ctx-9"⟩ ∧
    (workflowErrorMessage "ReadTimeout" "mid-1" "task-9" "ctx-9").parts =
      [.text ("Error in appointment booking workflow: " ++ "ReadTimeout")] ∧
    (handle_message_send (coordinatorHandler (.ok [("result", .str "p1")])
        (.exn "ReadTimeout") (.ok [("result", .str "p3")]) "mid-1") "ts" "task-9" "ctx-9"
        ⟨some sampleInbound⟩ []).toOption.map (fun r => r.1.status.state) =
      some .completed) :=
  ⟨rfl, coordinator_short_circuit sampleInbound
    "Book appointment for John Doe with cardiology" rfl "ReadTimeout"
    [("result", .str "p1")] [("result", .str "p2")] (.ok [("result", .str "p2")])
    (.ok [("result", .str "p3")]) "mid-1" "task-9" "ctx-9" "ts" "task-9" "ctx-9" []⟩

/-- Counterexample for C1 as stated: with step 1 succeeding and step 2
timing out, only two calls are made (so the short-circuit part holds),
but the coordinator Task ends completed — not failed — and the reply
has a single part, the failure text, so it does not include the step 1
result. -/
theorem coordinator_short_circuit_claim_counterexample :
    coordinator_process_message (.ok [("result", .str "p1")]) (.exn "ReadTimeout")
        (.ok []) "mid-1" (some sampleInbound) "task-9" "ctx-9" =
      .ok ⟨2, { role := "agent",
                parts := [.text "Error in appointment booking workflow: ReadTimeout"],
                messageId := "mid-1", taskId := some "task-9",
                contextId := some "ctx-9" }⟩ ∧
    (handle_message_send (coordinatorHandler (.ok [("result", .str "p1")])
        (.exn "ReadTimeout") (.ok []) "mid-1") "ts" "task-9" "ctx-9"
        ⟨some sampleInbound⟩ []).toOption.map (fun r => r.1.status.state) =
      some TaskState.completed ∧
    TaskState.completed ≠ TaskState.failed ∧
    (coordinator_process_message (.ok [("result", .str "p1")]) (.exn "ReadTimeout")
        (.ok []) "mid-1" (some sampleInbound) "task-9" "ctx-9").toOption.map
      (fun r => r.reply.parts.length) = some 1 :=
  ⟨rfl, rfl, by decide, rfl⟩

/-- A concrete error-shaped downstream envelope: the transport
succeeded and the body parsed, but it carries an error object and no
result field. -/
def sampleErrorEnvelope : DownResponse :=
  [("jsonrpc", .str "2.0"), ("id", .str "req-d1"),
   ("error", .obj [("code", .int (-32603)), ("message", .str "Internal error: boom")])]

/-- Claim C4 (amended): a downstream response whose envelope is
error-shaped (an error field and no result field) is treated by the
orchestrator as a successful step whose result fragment is the empty
object: no short-circuit occurs, all remaining steps still execute
(three calls are made), and the workflow reply aggregates the empty
object for that step. -/
theorem downstream_error_envelope_no_failure (m : Message) (userText : String)
    (ht : inboundText (some m) = .ok userText)
    (env1 : DownResponse) (h1 : env1.lookup "result" = none)
    (p2 p3 : DownResponse) (mid tid cid : String) :
    coordinator_process_message (.ok env1) (.ok p2) (.ok p3) mid (some m) tid cid =
      .ok ⟨3, workflowSuccessMessage env1 p2 p3 mid tid cid⟩ ∧
    getResult env1 = .obj [] := by
  constructor
  · simp [coordinator_process_message, ht]
  · simp [getResult, h1]

/-- Witness for C4: a concrete error-shaped envelope at step 1. -/
theorem downstream_error_envelope_no_failure_witness :
    inboundText (some sampleInbound) =
      .ok "Book appointment for John Doe with cardiology" ∧
    sampleErrorEnvelope.lookup "result" = none ∧
    (coordinator_process_message (.ok sampleErrorEnvelope) (.ok [("result", .str "p2")])
        (.ok [("result", .str "p3")]) "mid-2" (some sampleInbound) "task-10" "ctx-10" =
      .ok ⟨3, workflowSuccessMessage sampleErrorEnvelope [("result", .str "p2")]
                [("result", .str "p3")] "mid-2" "task-10" "ctx-10"⟩ ∧
    getResult sampleErrorEnvelope = .obj []) :=
  ⟨rfl, rfl, downstream_error_envelope_no_failure sampleInbound
    "Book appointment for John Doe with cardiology" rfl sampleErrorEnvelope rfl
    [("result", .str "p2")] [("result", .str "p3")] "mid-2" "task-10" "ctx-10"⟩

/-- Counterexample for C4 as stated: with the error-shaped envelope at
step 1, all three calls are made (no short-circuit is triggered) and
the step is aggregated as a success carrying the empty object. -/
theorem downstream_error_claim_counterexample :
    (coordinator_process_message (.ok sampleErrorEnvelope) (.ok [("result", .str "p2")])
        (.ok [("result", .str "p3")]) "mid-2" (some sampleInbound) "task-10"
        "ctx-10").toOption.map (fun r => r.callsMade) = some 3 ∧
    (3 : Nat) ≠ 1 ∧
    coordinator_process_message (.ok sampleErrorEnvelope) (.ok [("result", .str "p2")])
        (.ok [("result", .str "p3")]) "mid-2" (some sampleInbound) "task-10" "ctx-10" =
      .ok ⟨3, workflowSuccessMessage sampleErrorEnvelope [("result", .str "p2")]
                [("result", .str "p3")] "mid-2" "task-10" "ctx-10"⟩ ∧
    getResult sampleErrorEnvelope = .obj [] :=
  ⟨rfl, by decide, rfl, rfl⟩

/-- Claim C7: when all three downstream steps succeed, each returning
an envelope with a result fragment, the reply carries the success text
and one structured data part holding, in the original step order, the
ordered list of the three step descriptions and exactly one aggregated
entry per step with that step fragment; the coordinator Task ends in
state completed. -/
theorem coordinator_success_aggregation (m : Message) (userText : String)
    (ht : inboundText (some m) = .ok userText)
    (env1 env2 env3 : DownResponse) (r1 r2 r3 : JVal)
    (h1 : env1.lookup "result" = some r1)
    (h2 : env2.lookup "result" = some r2)
    (h3 : env3.lookup "result" = some r3)
    (mid tid cid now ftid fcid : String) (tasks : TaskTable) :
    coordinator_process_message (.ok env1) (.ok env2) (.ok env3) mid (some m) tid cid =
      .ok ⟨3, { role := "agent"
                parts := [.text "Appointment booking workflow completed successfully!",
                          .data (.obj
                            [("workflow_steps", .arr
                               [.str "Checking patient information...",
                                .str "Finding available doctors...",
                                .str "Booking appointment..."]),
                             ("patient_info", r1),
                             ("doctor_availability", r2),
                             ("booking_result", r3),
                             ("status", .str "completed")])]
                messageId := mid
                taskId := some tid
                contextId := some cid }⟩ ∧
    (handle_message_send (coordinatorHandler (.ok env1) (.ok env2) (.ok env3) mid)
        now ftid fcid ⟨some m⟩ tasks).toOption.map (fun r => r.1.status.state) =
      some .completed := by
  constructor
  · simp [coordinator_process_message, ht, workflowSuccessMessage, workflowData,
          getResult, h1, h2, h3, workflow_step_descriptions]
  · simp [handle_message_send, coordinatorHandler, coordinator_process_message, ht,
          Except.map, Except.toOption]

/-- Witness for C7: three concrete succeeding downstream responses. -/
theorem coordinator_success_aggregation_witness :
    inboundText (some sampleInbound) =
      .ok "Book appointment for John Doe with cardiology" ∧
    ([("result", JVal.str "p1")] : DownResponse).lookup "result" = some (.str "p1") ∧
    (coordinator_process_message (.ok [("result", .str "p1")]) (.ok [("result", .str "p2")])
        (.ok [("result", .str "p3")]) "mid-3" (some sampleInbound) "task-11" "ctx-11" =
      .ok ⟨3, { role := "agent"
                parts := [.text "Appointment booking workflow completed successfully!",
                          .data (.obj
                            [("workflow_steps", .arr
                               [.str "Checking patient information...",
                                .str "Finding available doctors...",
                                .str "Booking appointment..."]),
                             ("patient_info", .str "p1"),
                             ("doctor_availability", .str "p2"),
                             ("booking_result", .str "p3"),
                             ("status", .str "completed")])]
                messageId := "mid-3"
                taskId := some "task-11"
                contextId := some "ctx-11" }⟩ ∧
    (handle_message_send (coordinatorHandler (.ok [("result", .str "p1")])
        (.ok [("result", .str "p2")]) (.ok [("result", .str "p3")]) "mid-3")
        "ts" "task-11" "ctx-11" ⟨some sampleInbound⟩ []).toOption.map
      (fun r => r.1.status.state) = some .completed) :=
  ⟨rfl, rfl, coordinator_success_aggregation sampleInbound
    "Book appointment for John Doe with cardiology" rfl
    [("result", .str "p1")] [("result", .str "p2")] [("result", .str "p3")]
    (.str "p1") (.str "p2") (.str "p3") rfl rfl rfl
    "mid-3" "task-11" "ctx-11" "ts" "task-11" "ctx-11" []⟩

/-- Every progress event keeps the shared task and context ids, state
working, kind status-update, a stage text from the stage list, and some
final flag. -/
theorem progressEvents_fields (tid cid : String) (total : Nat) :
    ∀ (i : Nat) (l : List String) (e : StreamEvent),
      e ∈ progressEvents tid cid total i l →
      e.kind = "status-update" ∧ e.taskId = tid ∧ e.contextId = cid ∧
      e.state = .working ∧ (∃ s ∈ l, e.message = some s) ∧ (∃ b, e.final = some b) := by
  intro i l
  induction l generalizing i with
  | nil => intro e he; simp [progressEvents] at he
  | cons s rest ih =>
    intro e he
    simp only [progressEvents, List.mem_cons] at he
    rcases he with rfl | he
    · exact ⟨rfl, rfl, rfl, rfl, ⟨s, by simp, rfl⟩, ⟨_, rfl⟩⟩
    · obtain ⟨h1, h2, h3, h4, ⟨t, htl, hm⟩, hf⟩ := ih (i + 1) e he
      exact ⟨h1, h2, h3, h4, ⟨t, by simp [htl], hm⟩, hf⟩

/-- The progress events carry exactly the stage texts, in order. -/
theorem progressEvents_messages (tid cid : String) (total : Nat) :
    ∀ (i : Nat) (l : List String),
      (progressEvents tid cid total i l).filterMap (fun e => e.message) = l := by
  intro i l
  induction l generalizing i with
  | nil => rfl
  | cons s rest ih => simp [progressEvents, List.filterMap_cons, ih]

/-- One progress event is emitted per stage. -/
theorem progressEvents_length (tid cid : String) (total : Nat) :
    ∀ (i : Nat) (l : List String), (progressEvents tid cid total i l).length = l.length := by
  intro i l
  induction l generalizing i with
  | nil => rfl
  | cons s rest ih => simp [progressEvents, ih]

/-- Among the progress events of a nonempty stage suffix covering
indices i to total-1, exactly the last one carries final true; the
other length-1 events carry final false. -/
theorem progressEvents_final_counts (tid cid : String) :
    ∀ (l : List String) (i total : Nat), i + l.length = total → l ≠ [] →
      (progressEvents tid cid total i l).countP (fun e => e.final == some true) = 1 ∧
      (progressEvents tid cid total i l).countP (fun e => e.final == some false) =
        l.length - 1 := by
  intro l
  induction l with
  | nil => intro i total h hne; exact absurd rfl hne
  | cons s rest ih =>
    intro i total h hne
    by_cases hr : rest = []
    · subst hr
      have hi : (i == total - 1) = true := by
        simp only [List.length_cons, List.length_nil] at h
        simp only [beq_iff_eq]
        omega
      simp [progressEvents, List.countP_cons, hi]
    · have hlen : 0 < rest.length := List.length_pos.mpr hr
      have hi : (i == total - 1) = false := by
        simp only [List.length_cons] at h
        simp only [beq_eq_false_iff_ne, ne_eq]
        omega
      obtain ⟨iht, ihf⟩ := ih (i + 1) total (by simp only [List.length_cons] at h; omega) hr
      refine ⟨by simp [progressEvents, List.countP_cons, hi, iht], ?_⟩
      have hx : (progressEvents tid cid total i (s :: rest)).countP
          (fun e => e.final == some false) =
          (progressEvents tid cid total (i + 1) rest).countP
            (fun e => e.final == some false) + 1 := by
        simp [progressEvents, List.countP_cons, hi]
      rw [hx, ihf]
      simp only [List.length_cons]
      omega

/-- Closed form of the progress loop: the events are exactly the
enumerated stages, in order, each mapped to a working status-update
event whose final flag compares its index against the last index. -/
theorem progressEvents_eq_map (tid cid : String) (total : Nat) :
    ∀ (i : Nat) (l : List String),
      progressEvents tid cid total i l =
        (List.enumFrom i l).map (fun p =>
          { kind := "status-update", taskId := tid, contextId := cid,
            state := .working, message := some p.2,
            final := some (p.1 == total - 1) }) := by
  intro i l
  induction l generalizing i with
  | nil => rfl
  | cons s rest ih => simp [progressEvents, List.enumFrom, ih]

/-- Claim C8 (amended): a message/stream call with a nonempty list of N
configured stages emits, in submission order: one working acceptance
event carrying no final flag; one working progress event per stage,
each carrying that stage text (the emitted texts equal the stage list
in order), with final false on every stage but the last and final true
already on the last stage, as fixed by the closed form of the stream —
the acceptance event followed by the enumerated stages mapped to
working events with final = (index equals N-1), followed by one
completed event with final true.  All events carry the one taskId and
contextId, the stream has N+2 events, and exactly two events — not
exactly one — carry final true. -/
theorem streaming_event_shape (stages : List String) (tid cid : String)
    (hne : stages ≠ []) :
    (generate_stream stages tid cid).length = stages.length + 2 ∧
    (∀ e ∈ generate_stream stages tid cid, e.taskId = tid ∧ e.contextId = cid) ∧
    (generate_stream stages tid cid).head? =
      some { kind := "task", taskId := tid, contextId := cid, state := .working } ∧
    (generate_stream stages tid cid).getLast? =
      some { kind := "status-update", taskId := tid, contextId := cid,
             state := .completed, final := some true } ∧
    (generate_stream stages tid cid).filterMap (fun e => e.message) = stages ∧
    (generate_stream stages tid cid).countP (fun e => e.final == some true) = 2 ∧
    (generate_stream stages tid cid).countP (fun e => e.final == some false) =
      stages.length - 1 ∧
    generate_stream stages tid cid =
      { kind := "task", taskId := tid, contextId := cid, state := .working } ::
      ((List.enumFrom 0 stages).map (fun p =>
        { kind := "status-update", taskId := tid, contextId := cid,
          state := .working, message := some p.2,
          final := some (p.1 == stages.length - 1) }) ++
       [{ kind := "status-update", taskId := tid, contextId := cid,
          state := .completed, final := some true }]) := by
  obtain ⟨hct, hcf⟩ := progressEvents_final_counts tid cid stages 0 stages.length
    (by simp) hne
  refine ⟨?_, ?_, rfl, ?_, ?_, ?_, ?_, ?_⟩
  · simp [generate_stream, progressEvents_length]
  · intro e he
    simp only [generate_stream, List.mem_cons, List.mem_append,
      List.mem_singleton] at he
    rcases he with rfl | he | rfl | he
    · exact ⟨rfl, rfl⟩
    · obtain ⟨_, h2, h3, _, _, _⟩ := progressEvents_fields tid cid stages.length 0 stages e he
      exact ⟨h2, h3⟩
    · exact ⟨rfl, rfl⟩
    · exact absurd he (List.not_mem_nil e)
  · unfold generate_stream
    rw [← List.cons_append, List.getLast?_concat]
  · simp [generate_stream, List.filterMap_cons, List.filterMap_append,
      progressEvents_messages]
  · simp [generate_stream, List.countP_cons, List.countP_append, hct]
  · simp [generate_stream, List.countP_cons, List.countP_append, hcf]
  · unfold generate_stream
    rw [progressEvents_eq_map]

/-- Witness for C8: the configured five analysis stages on a concrete
stream: 7 events in total, of which exactly two carry final true and
four carry final false; the concrete stream evaluates to the explicit
event list, whose fifth stage event is already marked final. -/
theorem streaming_event_shape_witness :
    analysis_steps ≠ [] ∧
    (handle_streaming_message "tid-1" "ctx-1").length = analysis_steps.length + 2 ∧
    (handle_streaming_message "tid-1" "ctx-1").countP
      (fun e => e.final == some true) = 2 ∧
    (handle_streaming_message "tid-1" "ctx-1").countP
      (fun e => e.final == some false) = analysis_steps.length - 1 ∧
    handle_streaming_message "tid-1" "ctx-1" =
      [{ kind := "task", taskId := "tid-1", contextId := "ctx-1",
         state := .working },
       { kind := "status-update", taskId := "tid-1", contextId := "ctx-1",
         state := .working, message := some "Analyzing patient demographics...",
         final := some false },
       { kind := "status-update", taskId := "tid-1", contextId := "ctx-1",
         state := .working, message := some "Processing medical history...",
         final := some false },
       { kind := "status-update", taskId := "tid-1", contextId := "ctx-1",
         state := .working, message := some "Evaluating diagnostic patterns...",
         final := some false },
       { kind := "status-update", taskId := "tid-1", contextId := "ctx-1",
         state := .working, message := some "Generating risk assessment...",
         final := some false },
       { kind := "status-update", taskId := "tid-1", contextId := "ctx-1",
         state := .working, message := some "Finalizing recommendations...",
         final := some true },
       { kind := "status-update", taskId := "tid-1", contextId := "ctx-1",
         state := .completed, final := some true }] := by
  have h := streaming_event_shape analysis_steps "tid-1" "ctx-1" (by decide)
  exact ⟨by decide, h.1, h.2.2.2.2.2.1, h.2.2.2.2.2.2.1, by decide⟩

/-- Counterexample for C8 as stated: the streaming agent has N = 5
configured stages, yet the emitted stream contains two events with
final true (the last per-stage progress event is already marked final,
and the completion event is marked final again), not exactly one, and
only 4 events with final false rather than N+1 = 6 working events with
final false. -/
theorem streaming_claim_counterexample :
    analysis_steps.length = 5 ∧
    (handle_streaming_message "tid-1" "ctx-1").countP
      (fun e => e.final == some true) = 2 ∧
    (2 : Nat) ≠ 1 ∧
    (handle_streaming_message "tid-1" "ctx-1").countP
      (fun e => e.final == some false) = 4 ∧
    (4 : Nat) ≠ 5 + 1 ∧
    (4 : Nat) ≠ 5 :=
  ⟨rfl, rfl, by decide, rfl, by decide, by decide⟩

/-- Well-formedness of a stored Task: terminal completed state, a
two-element history of the inbound message followed by the reply, and
the status message equal to the last history element. -/
def TaskWellFormed (t : Task) : Prop :=
  t.status.state = .completed ∧
  ∃ inbound reply, t.history = [inbound, some reply] ∧ t.status.message = some reply

/-- Effect of one base dispatch call on the task table: either the
table is unchanged, or exactly one well-formed Task was inserted under
the fresh task id. -/
theorem handle_json_rpc_table_effect (process : Handler) (now ftid fcid : String)
    (payload : InboundPayload) (s : TaskTable) :
    (handle_json_rpc process now ftid fcid payload s).2 = s ∨
    ∃ task : Task,
      (handle_json_rpc process now ftid fcid payload s).2 = (ftid, task) :: s ∧
      task.id = ftid ∧ TaskWellFormed task := by
  cases payload with
  | malformed => left; rfl
  | parsed method requestId params =>
    by_cases hm : method = some "message/send"
    · cases hp : process params.message ftid fcid with
      | error e =>
        left
        simp [handle_json_rpc, hm, handle_message_send, hp]
      | ok reply =>
        right
        refine ⟨{ id := ftid
                  contextId := fcid
                  status := { state := .completed, message := some reply,
                              timestamp := some now }
                  history := [params.message, some reply] },
                ?_, rfl, rfl, params.message, reply, rfl, rfl⟩
        simp [handle_json_rpc, hm, handle_message_send, hp]
    · left
      simp [handle_json_rpc, hm]

/-- Effect of one secure dispatch call on the task table: the
authentication rejection leaves the table unchanged; otherwise the base
effect applies. -/
theorem secure_handle_json_rpc_table_effect (requireAuth : Bool)
    (headers : RequestHeaders) (process : Handler) (now ftid fcid : String)
    (payload : InboundPayload) (s : TaskTable) :
    (secure_handle_json_rpc requireAuth headers process now ftid fcid payload s).2 = s ∨
    ∃ task : Task,
      (secure_handle_json_rpc requireAuth headers process now ftid fcid payload s).2 =
        (ftid, task) :: s ∧
      task.id = ftid ∧ TaskWellFormed task := by
  unfold secure_handle_json_rpc
  cases ha : authenticate_request requireAuth headers with
  | false => left; simp [ha]
  | true =>
    simp only [ha, Bool.not_true, Bool.false_eq_true, if_false]
    exact handle_json_rpc_table_effect process now ftid fcid payload s

/-- Effect of any observable step on the task table. -/
theorem step_table_effect {s s' : TaskTable} (h : Step s s') :
    s' = s ∨
    ∃ ftid task, s' = (ftid, task) :: s ∧ ftid ∉ s.map Prod.fst ∧
      task.id = ftid ∧ TaskWellFormed task := by
  cases h with
  | rpc process now ftid fcid payload s hfresh =>
    rcases handle_json_rpc_table_effect process now ftid fcid payload s with he | ⟨t, he, hid, hwf⟩
    · left; exact he
    · right; exact ⟨ftid, t, he, hfresh, hid, hwf⟩
  | secureRpc requireAuth headers process now ftid fcid payload s hfresh =>
    rcases secure_handle_json_rpc_table_effect requireAuth headers process now ftid fcid
        payload s with he | ⟨t, he, hid, hwf⟩
    · left; exact he
    · right; exact ⟨ftid, t, he, hfresh, hid, hwf⟩

/-- Stored bindings survive every step: the table only grows, so a Task
is never mutated or removed after insertion. -/
theorem step_preserves_bindings {s s' : TaskTable} (h : Step s s') :
    ∀ p ∈ s, p ∈ s' := by
  intro p hp
  rcases step_table_effect h with rfl | ⟨ftid, task, rfl, _, _, _⟩
  · exact hp
  · exact List.mem_cons_of_mem _ hp

/-- Claim C10: in every reachable agent state, every stored Task is
terminal in state completed (never observable as submitted, working or
failed), has a two-element history — the inbound message followed by
the agent reply — whose last element is exactly the status message;
task ids are pairwise distinct, so a Task is inserted at most once
under its id; and every step preserves all existing bindings unchanged,
so no stored Task is ever mutated. -/
theorem task_table_invariant (s : TaskTable) (hs : Reachable s) :
    (∀ p ∈ s, TaskWellFormed p.2 ∧
      p.2.status.state ≠ .submitted ∧ p.2.status.state ≠ .working ∧
      p.2.status.state ≠ .failed ∧ p.2.history.length = 2 ∧
      p.2.history.getLast? = some p.2.status.message) ∧
    (s.map Prod.fst).Nodup ∧
    (∀ s', Step s s' → ∀ p ∈ s, p ∈ s') := by
  induction hs with
  | init =>
    exact ⟨fun p hp => absurd hp (List.not_mem_nil p), List.nodup_nil,
           fun s' _ p hp => absurd hp (List.not_mem_nil p)⟩
  | @step s0 s1 _ hstep ih =>
    refine ⟨?_, ?_, fun s' hst p hp => step_preserves_bindings hst p hp⟩
    · intro p hp
      rcases step_table_effect hstep with rfl | ⟨ftid, task, rfl, hfresh, hid, hwf⟩
      · exact ih.1 p hp
      · rcases List.mem_cons.mp hp with rfl | hp0
        · obtain ⟨hstate, inbound, reply, hhist, hmsg⟩ := hwf
          refine ⟨⟨hstate, inbound, reply, hhist, hmsg⟩, ?_, ?_, ?_, ?_, ?_⟩
          · rw [hstate]; decide
          · rw [hstate]; decide
          · rw [hstate]; decide
          · rw [hhist]; rfl
          · rw [hhist, hmsg]; rfl
        · exact ih.1 p hp0
    · rcases step_table_effect hstep with rfl | ⟨ftid, task, rfl, hfresh, hid, hwf⟩
      · exact ih.2.1
      · simpa using List.Nodup.cons hfresh ih.2.1

/-- Witness for C10: the reachable one-task state produced by one
concrete message/send request on a fresh agent satisfies the
invariant. -/
theorem task_table_invariant_witness :
    Reachable ((handle_json_rpc (base_process_message "m-1") "ts-1" "task-1" "ctx-1"
        (.parsed (some "message/send") (some "req-1") ⟨some sampleInbound⟩) []).2) ∧
    (∀ p ∈ (handle_json_rpc (base_process_message "m-1") "ts-1" "task-1" "ctx-1"
        (.parsed (some "message/send") (some "req-1") ⟨some sampleInbound⟩) []).2,
      TaskWellFormed p.2) ∧
    (((handle_json_rpc (base_process_message "m-1") "ts-1" "task-1" "ctx-1"
        (.parsed (some "message/send") (some "req-1") ⟨some sampleInbound⟩) []).2).map
      Prod.fst).Nodup := by
  have hreach : Reachable ((handle_json_rpc (base_process_message "m-1") "ts-1" "task-1"
      "ctx-1" (.parsed (some "message/send") (some "req-1") ⟨some sampleInbound⟩) []).2) :=
    Reachable.step Reachable.init
      (Step.rpc (base_process_message "m-1") "ts-1" "task-1" "ctx-1"
        (.parsed (some "message/send") (some "req-1") ⟨some sampleInbound⟩) [] (by simp))
  have h := task_table_invariant _ hreach
  exact ⟨hreach, fun p hp => (h.1 p hp).1, h.2.1⟩

end A2A
